import Mathlib

/-!
The folders panel of Dolphin (`src/panels/folders/folderspanel.cpp`).

A shallow embedding of `FoldersPanel`.  The panel is a thin adapter over toolkit
objects (directory lister, item model, proxy model, tree view).  Those objects are
not part of the file; what the panel reads from them at the time of a call is
collected in a `Toolkit` snapshot that every operation receives, and what the
panel asks of them is recorded, in program order, as a list of `Call`s.

An operation returns `none` when a `Q_ASSERT` of the source fails or when a null
component pointer would be dereferenced, and `some (panel, calls)` otherwise.
-/

/-! ## Toolkit data -/

/-- A `KUrl`, reduced to what the panel observes of it: `isValid()`,
`isLocalFile()`, the part in front of the path, and the path. -/
structure KUrl where
  valid : Bool
  localFile : Bool
  authority : String
  path : String
  deriving DecidableEq, Repr

namespace KUrl

/-- The default constructed `KUrl()`. -/
def empty : KUrl := ⟨false, false, "", ""⟩

/-- Source: `KUrl::isValid()`. -/
def isValid (u : KUrl) : Bool := u.valid

/-- Source: `KUrl::isLocalFile()`. -/
def isLocalFile (u : KUrl) : Bool := u.localFile

/-- Source: `KUrl::setPath(path)`: only the path component is replaced. -/
def setPath (u : KUrl) (p : String) : KUrl := { u with path := p }

/-- Source: `KUrl::setFileName(name)`: the last component of the path is replaced. -/
def setFileName (u : KUrl) (name : String) : KUrl :=
  { u with path := String.intercalate "/" ((u.path.splitOn "/").dropLast ++ [name]) }

end KUrl

/-- A `QModelIndex`: either the invalid index or the index of a row. -/
inductive QModelIndex where
  | invalid
  | row (id : Nat)
  deriving DecidableEq, Repr

/-- Source: `QModelIndex::isValid()`. -/
def QModelIndex.isValid : QModelIndex → Bool
  | .invalid => false
  | .row _ => true

/-- A `KFileItem`, reduced to `isNull()`, `url()` and `isDir()`. -/
structure KFileItem where
  null : Bool
  url : KUrl
  dir : Bool
  deriving DecidableEq, Repr

namespace KFileItem

/-- The default constructed (null) `KFileItem()`. -/
def nullItem : KFileItem := ⟨true, KUrl.empty, false⟩

/-- Source: `KFileItem::isNull()`. -/
def isNull (i : KFileItem) : Bool := i.null

/-- Source: `KFileItem::isDir()`. -/
def isDir (i : KFileItem) : Bool := i.dir

end KFileItem

/-- Source: `Qt::NoButton`. -/
def Qt.NoButton : Nat := 0

/-- Source: `Qt::Key_Return`. -/
def Qt.Key_Return : Nat := 0x01000004

/-- Source: `Qt::Key_Enter`. -/
def Qt.Key_Enter : Nat := 0x01000005

/-- Source: `KDirLister::OpenUrlFlag`. -/
inductive OpenUrlFlag where
  | NoFlags
  | Keep
  | Reload
  deriving DecidableEq, Repr

/-- The signals the panel connects to. -/
inductive Signal where
  | expand
  | clicked
  | urlsDropped
  | pressed
  deriving DecidableEq, Repr

/-- The slots of the panel. -/
inductive Slot where
  | expandToDir
  | updateActiveView
  | dropUrls
  | updateMouseButtons
  | scrollToLeaf
  deriving DecidableEq, Repr

/-- What the panel does to its collaborators, one constructor per call site of the
source. -/
inductive Call where
  /-- Source: `FoldersPanelSettings::setShowHiddenFiles(show)` -/
  | settingsSetShowHiddenFiles (visible : Bool)
  /-- Source: `new KDirLister()` -/
  | newDirLister (ptr : Nat)
  /-- Source: `m_dirLister->setDirOnlyMode(b)` -/
  | listerSetDirOnlyMode (b : Bool)
  /-- Source: `m_dirLister->setAutoUpdate(b)` -/
  | listerSetAutoUpdate (b : Bool)
  /-- Source: `m_dirLister->setMainWindow(window())` -/
  | listerSetMainWindow
  /-- Source: `m_dirLister->setDelayedMimeTypes(b)` -/
  | listerSetDelayedMimeTypes (b : Bool)
  /-- Source: `m_dirLister->setAutoErrorHandlingEnabled(b, this)` -/
  | listerSetAutoErrorHandlingEnabled (b : Bool)
  /-- Source: `m_dirLister->setShowingDotFiles(b)` -/
  | listerSetShowingDotFiles (b : Bool)
  /-- Source: `m_dirLister->stop()` -/
  | listerStop
  /-- Source: `m_dirLister->openUrl(url, flag)` -/
  | listerOpenUrl (url : KUrl) (flag : OpenUrlFlag)
  /-- Source: `new DolphinModel(this)` -/
  | newDolphinModel (ptr : Nat)
  /-- Source: `m_dolphinModel->setDirLister(m_dirLister)` -/
  | modelSetDirLister (lister : Nat)
  /-- Source: `m_dolphinModel->setDropsAllowed(DolphinModel::DropOnDirectory)` -/
  | modelSetDropsAllowedOnDirectory
  /-- Source: `m_dolphinModel->expandToUrl(url)` -/
  | modelExpandToUrl (url : KUrl)
  /-- Source: `new DolphinSortFilterProxyModel(this)` -/
  | newProxyModel (ptr : Nat)
  /-- Source: `m_proxyModel->setSourceModel(m_dolphinModel)` -/
  | proxySetSourceModel (model : Nat)
  /-- Source: `m_proxyModel->setSorting(DolphinView::SortByName)` -/
  | proxySetSortingByName
  /-- Source: `m_proxyModel->setSortOrder(Qt::AscendingOrder)` -/
  | proxySetSortOrderAscending
  /-- Source: `new PanelTreeView(this)` -/
  | newTreeView (ptr : Nat)
  /-- Source: `m_treeView->setModel(m_proxyModel)` -/
  | viewSetModel (proxy : Nat)
  /-- Source: `new FolderExpander(m_treeView, m_proxyModel)` -/
  | newFolderExpander (view : Nat) (proxy : Nat)
  /-- Source: `connect(sender, SIGNAL(sig), this, SLOT(slot))` -/
  | connect (sig : Signal) (slot : Slot)
  /-- Source: `new QVBoxLayout(this)` -/
  | newLayout
  /-- Source: `layout->setMargin(n)` -/
  | layoutSetMargin (n : Nat)
  /-- Source: `layout->addWidget(m_treeView)` -/
  | layoutAddWidget (view : Nat)
  /-- Source: `m_treeView->edit(index)` -/
  | viewEdit (index : QModelIndex)
  /-- Source: `m_treeView->setExpanded(index, b)` -/
  | viewSetExpanded (index : QModelIndex) (b : Bool)
  /-- Source: `m_treeView->resizeColumnToContents(DolphinModel::Name)` -/
  | viewResizeNameColumn
  /-- Source: `m_treeView->scrollTo(index)` -/
  | viewScrollTo (index : QModelIndex)
  /-- Source: `selModel->setCurrentIndex(index, QItemSelectionModel::ClearAndSelect)` -/
  | selSetCurrentIndexClearAndSelect (index : QModelIndex)
  /-- Source: `QTimer::singleShot(msec, this, SLOT(slot))` -/
  | timerSingleShot (msec : Nat) (slot : Slot)
  /-- Source: `emit changeUrl(url, buttons)` -/
  | emitChangeUrl (url : KUrl) (buttons : Nat)
  /-- Source: `emit changeSelection(KFileItemList())` -/
  | emitChangeSelectionEmpty
  /-- Source: `DragAndDropHelper::instance().dropUrls(item, url, event, this)` -/
  | dndDropUrls (item : KFileItem) (url : KUrl) (event : Nat)
  /-- Source: `KonqOperations::rename(this, oldUrl, newUrl)` -/
  | konqRename (oldUrl : KUrl) (newUrl : KUrl)
  /-- Source: `RenameDialog dialog(this, items); dialog.exec()` -/
  | renameDialogExec (item : KFileItem)
  /-- Source: `TreeViewContextMenu contextMenu(this, item); contextMenu.open()` -/
  | contextMenuOpen (item : KFileItem)
  /-- Source: `event->accept()` -/
  | eventAccept
  /-- Source: `Panel::showEvent(event)` -/
  | panelShowEvent
  /-- Source: `Panel::contextMenuEvent(event)` -/
  | panelContextMenuEvent
  /-- Source: `Panel::keyPressEvent(event)` -/
  | panelKeyPressEvent (key : Nat)
  deriving DecidableEq, Repr

/-- What the panel reads from its collaborators during one call. -/
structure Toolkit where
  /-- the `KUrl` made from `QDir::rootPath()` -/
  rootUrl : KUrl
  /-- Source: `m_dirLister->url()` -/
  listerUrl : KUrl
  /-- Source: `m_dolphinModel->indexForUrl(url)` -/
  indexForUrl : KUrl → QModelIndex
  /-- Source: `m_dolphinModel->indexForItem(item)` -/
  indexForItem : KFileItem → QModelIndex
  /-- Source: `m_dolphinModel->itemForIndex(index)` -/
  itemForIndex : QModelIndex → KFileItem
  /-- Source: `m_proxyModel->mapToSource(index)` -/
  mapToSource : QModelIndex → QModelIndex
  /-- Source: `m_proxyModel->mapFromSource(index)` -/
  mapFromSource : QModelIndex → QModelIndex
  /-- Source: `m_treeView->currentIndex()` -/
  currentIndex : QModelIndex
  /-- Source: `m_treeView->indexAt(pos)` -/
  indexAt : Nat → QModelIndex
  /-- Source: `QApplication::mouseButtons()` -/
  mouseButtons : Nat
  /-- Source: `FoldersPanelSettings::showHiddenFiles()` -/
  showHiddenFiles : Bool
  /-- Source: `DolphinSettings::instance().generalSettings()->renameInline()` -/
  renameInline : Bool
  /-- Source: `dialog.exec() == QDialog::Accepted` -/
  dialogAccepted : Bool
  /-- Source: `dialog.newName()` -/
  dialogNewName : String
  /-- the address `new KDirLister()` returns -/
  freshDirLister : Nat
  /-- the address `new DolphinModel(this)` returns -/
  freshDolphinModel : Nat
  /-- the address `new DolphinSortFilterProxyModel(this)` returns -/
  freshProxyModel : Nat
  /-- the address `new PanelTreeView(this)` returns -/
  freshTreeView : Nat

/-! ## The panel -/

/-- The members of `FoldersPanel`, together with `m_url` of its base class
`Panel`.  A component pointer is `none` when it is `0`. -/
structure FoldersPanel where
  /-- Source: `Panel::url()` -/
  url : KUrl
  m_setLeafVisible : Bool
  m_mouseButtons : Nat
  m_dirLister : Option Nat
  m_dolphinModel : Option Nat
  m_proxyModel : Option Nat
  m_treeView : Option Nat
  m_leafDir : KUrl
  deriving DecidableEq, Repr

/-- The result of an operation: the panel afterwards and the calls made, or `none`
for a failed `Q_ASSERT` or a null dereference. -/
abbrev Outcome := Option (FoldersPanel × List Call)

namespace FoldersPanel

/-- The constructor `FoldersPanel::FoldersPanel`; `panelUrl` is the URL the base
class constructor leaves in the panel. -/
def create (panelUrl : KUrl) : FoldersPanel :=
  { url := panelUrl
    m_setLeafVisible := false
    m_mouseButtons := Qt.NoButton
    m_dirLister := none
    m_dolphinModel := none
    m_proxyModel := none
    m_treeView := none
    m_leafDir := KUrl.empty }

/-- Modelled from the spec: `Panel::setUrl` of the base class, whose source is
missing; the call "is stored only as the panel's current URL". -/
def panelSetUrl (p : FoldersPanel) (url : KUrl) : FoldersPanel :=
  { p with url := url }

/-- Source: `FoldersPanel::setShowHiddenFiles`. -/
def setShowHiddenFiles (env : Toolkit) (p : FoldersPanel) (visible : Bool) : Outcome :=
  match p.m_dirLister with
  | some _ =>
    some (p, [Call.settingsSetShowHiddenFiles visible,
              Call.listerSetShowingDotFiles visible,
              Call.listerOpenUrl env.listerUrl OpenUrlFlag.Reload])
  | none => some (p, [Call.settingsSetShowHiddenFiles visible])

/-- Source: `FoldersPanel::showHiddenFiles`. -/
def showHiddenFiles (env : Toolkit) (_p : FoldersPanel) : Bool :=
  env.showHiddenFiles

/-- Source: `FoldersPanel::rename`. -/
def rename (env : Toolkit) (p : FoldersPanel) (item : KFileItem) : Outcome :=
  if env.renameInline then
    match p.m_dolphinModel, p.m_proxyModel, p.m_treeView with
    | some _, some _, some _ =>
      let dirIndex := env.indexForItem item
      let proxyIndex := env.mapFromSource dirIndex
      some (p, [Call.viewEdit proxyIndex])
    | _, _, _ => none
  else
    if env.dialogAccepted then
      let newName := env.dialogNewName
      if !newName.isEmpty then
        let newUrl := item.url.setFileName newName
        some (p, [Call.renameDialogExec item, Call.konqRename item.url newUrl])
      else some (p, [Call.renameDialogExec item])
    else some (p, [Call.renameDialogExec item])

/-- Source: `FoldersPanel::loadTree`. -/
def loadTree (env : Toolkit) (p : FoldersPanel) (url : KUrl) : Outcome :=
  match p.m_dirLister with
  | none => none
  | some _ =>
    let p1 := { p with m_leafDir := url }
    let baseUrl := if url.isLocalFile then env.rootUrl else url.setPath "/"
    let reload :=
      if env.listerUrl != baseUrl then
        [Call.listerStop, Call.listerOpenUrl baseUrl OpenUrlFlag.Reload]
      else []
    match p1.m_dolphinModel with
    | none => none
    | some _ => some (p1, reload ++ [Call.modelExpandToUrl p1.m_leafDir])

/-- Source: `FoldersPanel::setUrl`. -/
def setUrl (env : Toolkit) (p : FoldersPanel) (url : KUrl) : Outcome :=
  if !url.isValid || url == p.url then some (p, [])
  else
    let p1 := panelSetUrl p url
    match p1.m_dirLister with
    | some _ => loadTree env { p1 with m_setLeafVisible := true } url
    | none => some (p1, [])

/-- The body of `if (m_dirLister == 0) { ... }` in `FoldersPanel::showEvent`. -/
def createComponents (env : Toolkit) (p : FoldersPanel) : Outcome :=
  let p1 := { p with m_dirLister := some env.freshDirLister }
  let c1 := [Call.newDirLister env.freshDirLister,
             Call.listerSetDirOnlyMode true,
             Call.listerSetAutoUpdate true,
             Call.listerSetMainWindow,
             Call.listerSetDelayedMimeTypes true,
             Call.listerSetAutoErrorHandlingEnabled false,
             Call.listerSetShowingDotFiles env.showHiddenFiles]
  if p1.m_dolphinModel != none then none
  else
    let p2 := { p1 with m_dolphinModel := some env.freshDolphinModel }
    let c2 := [Call.newDolphinModel env.freshDolphinModel,
               Call.modelSetDirLister env.freshDirLister,
               Call.modelSetDropsAllowedOnDirectory,
               Call.connect Signal.expand Slot.expandToDir]
    if p2.m_proxyModel != none then none
    else
      let p3 := { p2 with m_proxyModel := some env.freshProxyModel }
      let c3 := [Call.newProxyModel env.freshProxyModel,
                 Call.proxySetSourceModel env.freshDolphinModel]
      if p3.m_treeView != none then none
      else
        let p4 := { p3 with m_treeView := some env.freshTreeView }
        let c4 := [Call.newTreeView env.freshTreeView,
                   Call.viewSetModel env.freshProxyModel,
                   Call.proxySetSortingByName,
                   Call.proxySetSortOrderAscending,
                   Call.newFolderExpander env.freshTreeView env.freshProxyModel,
                   Call.connect Signal.clicked Slot.updateActiveView,
                   Call.connect Signal.urlsDropped Slot.dropUrls,
                   Call.connect Signal.pressed Slot.updateMouseButtons,
                   Call.newLayout,
                   Call.layoutSetMargin 0,
                   Call.layoutAddWidget env.freshTreeView]
        some (p4, c1 ++ c2 ++ c3 ++ c4)

/-- The statement `if (m_dirLister == 0) { ... }` of `FoldersPanel::showEvent`. -/
def ensureComponents (env : Toolkit) (p : FoldersPanel) : Outcome :=
  match p.m_dirLister with
  | none => createComponents env p
  | some _ => some (p, [])

/-- Source: `FoldersPanel::showEvent`. -/
def showEvent (env : Toolkit) (p : FoldersPanel) (spontaneous : Bool) : Outcome :=
  if spontaneous then some (p, [Call.panelShowEvent])
  else
    match ensureComponents env p with
    | none => none
    | some (p1, c1) =>
      match loadTree env p1 p1.url with
      | none => none
      | some (p2, c2) => some (p2, c1 ++ c2 ++ [Call.panelShowEvent])

/-- Source: `FoldersPanel::contextMenuEvent`; `pos` is `event->pos()`. -/
def contextMenuEvent (env : Toolkit) (p : FoldersPanel) (pos : Nat) : Outcome :=
  match p.m_treeView with
  | none => none
  | some _ =>
    let index := env.indexAt pos
    if index.isValid then
      match p.m_proxyModel, p.m_dolphinModel with
      | some _, some _ =>
        let dolphinModelIndex := env.mapToSource index
        let item := env.itemForIndex dolphinModelIndex
        some (p, [Call.panelContextMenuEvent, Call.emitChangeSelectionEmpty,
                  Call.contextMenuOpen item])
      | _, _ => none
    else
      some (p, [Call.panelContextMenuEvent, Call.contextMenuOpen KFileItem.nullItem])

/-- Source: `FoldersPanel::updateActiveView`. -/
def updateActiveView (env : Toolkit) (p : FoldersPanel) (index : QModelIndex) : Outcome :=
  match p.m_proxyModel, p.m_dolphinModel with
  | some _, some _ =>
    let dirIndex := env.mapToSource index
    let item := env.itemForIndex dirIndex
    if !item.isNull then some (p, [Call.emitChangeUrl item.url p.m_mouseButtons])
    else some (p, [])
  | _, _ => none

/-- Source: `FoldersPanel::keyPressEvent`; `key` is `event->key()`. -/
def keyPressEvent (env : Toolkit) (p : FoldersPanel) (key : Nat) : Outcome :=
  if key == Qt.Key_Enter || key == Qt.Key_Return then
    match p.m_treeView with
    | none => none
    | some _ =>
      match updateActiveView env p env.currentIndex with
      | none => none
      | some (p1, c) => some (p1, Call.eventAccept :: c)
  else some (p, [Call.panelKeyPressEvent key])

/-- Source: `FoldersPanel::dropUrls`; `event` identifies the `QDropEvent`. -/
def dropUrls (env : Toolkit) (p : FoldersPanel) (index : QModelIndex) (event : Nat) :
    Outcome :=
  if index.isValid then
    match p.m_proxyModel, p.m_dolphinModel with
    | some _, some _ =>
      let dirIndex := env.mapToSource index
      let item := env.itemForIndex dirIndex
      if item.isNull then none
      else if item.isDir then some (p, [Call.dndDropUrls item item.url event])
      else some (p, [])
    | _, _ => none
  else some (p, [])

/-- Source: `FoldersPanel::selectLeafDirectory`. -/
def selectLeafDirectory (env : Toolkit) (p : FoldersPanel) : Outcome :=
  match p.m_dolphinModel, p.m_proxyModel with
  | some _, some _ =>
    let dirIndex := env.indexForUrl p.m_leafDir
    let proxyIndex := env.mapFromSource dirIndex
    if !proxyIndex.isValid then some (p, [])
    else
      let p1 := if p.m_setLeafVisible then { p with m_setLeafVisible := false } else p
      let c1 := if p.m_setLeafVisible then [Call.timerSingleShot 100 Slot.scrollToLeaf] else []
      match p1.m_treeView with
      | none => none
      | some _ => some (p1, c1 ++ [Call.selSetCurrentIndexClearAndSelect proxyIndex])
  | _, _ => none

/-- Source: `FoldersPanel::expandToDir`. -/
def expandToDir (env : Toolkit) (p : FoldersPanel) (index : QModelIndex) : Outcome :=
  match p.m_treeView with
  | none => none
  | some _ =>
    match selectLeafDirectory env p with
    | none => none
    | some (p1, c) =>
      some (p1, Call.viewSetExpanded index true :: c ++ [Call.viewResizeNameColumn])

/-- Source: `FoldersPanel::scrollToLeaf`. -/
def scrollToLeaf (env : Toolkit) (p : FoldersPanel) : Outcome :=
  match p.m_dolphinModel, p.m_proxyModel with
  | some _, some _ =>
    let dirIndex := env.indexForUrl p.m_leafDir
    let proxyIndex := env.mapFromSource dirIndex
    if proxyIndex.isValid then
      match p.m_treeView with
      | none => none
      | some _ => some (p, [Call.viewScrollTo proxyIndex])
    else some (p, [])
  | _, _ => none

/-- Source: `FoldersPanel::updateMouseButtons`. -/
def updateMouseButtons (env : Toolkit) (p : FoldersPanel) : Outcome :=
  some ({ p with m_mouseButtons := env.mouseButtons }, [])

end FoldersPanel

/-! ## Sequences of operations -/

/-- The entry points of the panel: its public methods, event handlers and slots. -/
inductive Op where
  | setShowHiddenFiles (visible : Bool)
  | rename (item : KFileItem)
  | setUrl (url : KUrl)
  | showEvent (spontaneous : Bool)
  | contextMenuEvent (pos : Nat)
  | keyPressEvent (key : Nat)
  | updateActiveView (index : QModelIndex)
  | dropUrls (index : QModelIndex) (event : Nat)
  | expandToDir (index : QModelIndex)
  | scrollToLeaf
  | updateMouseButtons
  | selectLeafDirectory
  deriving DecidableEq, Repr

/-- One executed operation: the panel before, what the collaborators answered, the
operation, the calls it made and the panel after. -/
structure Step where
  before : FoldersPanel
  env : Toolkit
  op : Op
  calls : List Call
  after : FoldersPanel

namespace FoldersPanel

/-- Dispatch of one operation to the method of the source. -/
def step (env : Toolkit) (p : FoldersPanel) : Op → Outcome
  | .setShowHiddenFiles visible => setShowHiddenFiles env p visible
  | .rename item => rename env p item
  | .setUrl url => setUrl env p url
  | .showEvent spontaneous => showEvent env p spontaneous
  | .contextMenuEvent pos => contextMenuEvent env p pos
  | .keyPressEvent key => keyPressEvent env p key
  | .updateActiveView index => updateActiveView env p index
  | .dropUrls index event => dropUrls env p index event
  | .expandToDir index => expandToDir env p index
  | .scrollToLeaf => scrollToLeaf env p
  | .updateMouseButtons => updateMouseButtons env p
  | .selectLeafDirectory => selectLeafDirectory env p

/-- Runs a sequence of operations, each with the answers of the collaborators at
its time, and logs every step; `none` as soon as one operation fails. -/
def run (p : FoldersPanel) : List (Toolkit × Op) → Option (FoldersPanel × List Step)
  | [] => some (p, [])
  | (env, op) :: rest =>
    match step env p op with
    | none => none
    | some (p1, calls) =>
      match run p1 rest with
      | none => none
      | some (p2, log) => some (p2, ⟨p, env, op, calls, p1⟩ :: log)

/-- All four component pointers are set. -/
def allPresent (p : FoldersPanel) : Bool :=
  p.m_dirLister.isSome && p.m_dolphinModel.isSome && p.m_proxyModel.isSome &&
    p.m_treeView.isSome

/-- All four component pointers are null. -/
def allAbsent (p : FoldersPanel) : Bool :=
  p.m_dirLister.isNone && p.m_dolphinModel.isNone && p.m_proxyModel.isNone &&
    p.m_treeView.isNone

/-- The view index the leaf directory resolves to, through the model and the
proxy. -/
def leafIndex (env : Toolkit) (p : FoldersPanel) : QModelIndex :=
  env.mapFromSource (env.indexForUrl p.m_leafDir)

/-- The listing base of a URL, as the claim words it: the file-system root for a
local URL, the URL with its path replaced by "/" otherwise. -/
def baseUrlOf (env : Toolkit) (url : KUrl) : KUrl :=
  if url.isLocalFile then env.rootUrl else { url with path := "/" }

end FoldersPanel

namespace Call

/-- The call schedules the one-shot `scrollToLeaf` timer. -/
@[simp]
def isScrollTimer : Call → Bool
  | .timerSingleShot _ Slot.scrollToLeaf => true
  | _ => false

/-- The call constructs a component or makes a signal connection. -/
@[simp]
def isConstruction : Call → Bool
  | .newDirLister _ => true
  | .newDolphinModel _ => true
  | .newProxyModel _ => true
  | .newTreeView _ => true
  | .newFolderExpander _ _ => true
  | .newLayout => true
  | .connect _ _ => true
  | _ => false

/-- The call is a request to the listing source or an expansion request to the
model. -/
@[simp]
def isTreeWork : Call → Bool
  | .listerStop => true
  | .listerOpenUrl _ _ => true
  | .modelExpandToUrl _ => true
  | _ => false

end Call

/-- Number of `scrollToLeaf` timers scheduled by a list of calls. -/
def timers (calls : List Call) : Nat := (calls.filter Call.isScrollTimer).length

/-- Number of `scrollToLeaf` timers scheduled in a log. -/
def logTimers (log : List Step) : Nat := (log.map (fun s => timers s.calls)).sum

/-- The selection of the tree view after a list of calls, starting from `sel`:
`setCurrentIndex(index, ClearAndSelect)` makes `index` the only selected row. -/
def selectionAfter (sel : List QModelIndex) : List Call → List QModelIndex
  | [] => sel
  | Call.selSetCurrentIndexClearAndSelect index :: rest => selectionAfter [index] rest
  | _ :: rest => selectionAfter sel rest

namespace Op

/-- A show event that is not spontaneous. -/
def isFirstHandShow : Op → Bool
  | .showEvent false => true
  | _ => false

/-- A show event, spontaneous or not. -/
def isShow : Op → Bool
  | .showEvent _ => true
  | _ => false

/-- The operations that can reach a panel that was never shown: `setUrl`,
`setShowHiddenFiles`, `updateMouseButtons` and show events. -/
def isLifecycle : Op → Bool
  | .setUrl _ => true
  | .setShowHiddenFiles _ => true
  | .updateMouseButtons => true
  | .showEvent _ => true
  | _ => false

end Op

namespace Step

/-- The step is an accepted `setUrl` call: the URL is valid and differs from the
panel's current URL. -/
def acceptedSetUrl (s : Step) : Bool :=
  match s.op with
  | .setUrl url => url.isValid && url != s.before.url
  | _ => false

/-- The step is an accepted `setUrl` call on a panel whose listing source exists. -/
def acceptedSetUrlOnShown (s : Step) : Bool :=
  s.acceptedSetUrl && s.before.m_dirLister.isSome

/-- The step is a successful leaf selection: `selectLeafDirectory` ran (directly or
from `expandToDir`) and the leaf directory resolved to a valid view index. -/
def leafSelected (s : Step) : Bool :=
  match s.op with
  | .expandToDir _ => (FoldersPanel.leafIndex s.env s.before).isValid
  | .selectLeafDirectory => (FoldersPanel.leafIndex s.env s.before).isValid
  | _ => false

end Step

/-- Some step of the log is a fresh `setUrl` call (in the sense of `fresh`) and no
step after it is a successful leaf selection. -/
def pendingSince (fresh : Step → Bool) : List Step → Bool
  | [] => false
  | s :: rest => (fresh s && rest.all (fun t => !t.leafSelected)) || pendingSince fresh rest

/-- The mouse buttons stored by the last `updateMouseButtons` of a sequence, or
`start` when there is none. -/
def lastButtons (start : Nat) : List (Toolkit × Op) → Nat
  | [] => start
  | (env, Op.updateMouseButtons) :: rest => lastButtons env.mouseButtons rest
  | _ :: rest => lastButtons start rest

/-- The step is one execution of its operation: the operation, run on the panel
before with the recorded answers, gives the recorded calls and the panel after. -/
def Step.sound (s : Step) : Prop :=
  FoldersPanel.step s.env s.before s.op = some (s.after, s.calls)

/-- The log is a history leading from panel `p` to panel `q`: every step is sound
and starts where the one before it ended. -/
def History (p : FoldersPanel) : List Step → FoldersPanel → Prop
  | [], q => p = q
  | s :: rest, q => s.before = p ∧ s.sound ∧ History s.after rest q

/-- The components are all absent or all present, and when the listing source
exists the leaf directory is the panel's URL. -/
def FoldersPanel.wellFormed (p : FoldersPanel) : Prop :=
  (p.allAbsent = true ∨ p.allPresent = true) ∧
    (p.m_dirLister.isSome = true → p.m_leafDir = p.url)

/-! ## Sample data -/

/-- A local directory URL. -/
def sampleHome : KUrl := ⟨true, true, "file://", "/home"⟩

/-- A remote directory URL. -/
def sampleRemote : KUrl := ⟨true, false, "ftp://host", "/pub"⟩

/-- The root of the local file system. -/
def sampleRoot : KUrl := ⟨true, true, "file://", "/"⟩

/-- Collaborators whose model holds `/home` as row 1 (a directory) and a plain
file as row 2; the proxy maps every index to itself. -/
def sampleToolkit : Toolkit :=
  { rootUrl := sampleRoot
    listerUrl := sampleRoot
    indexForUrl := fun u => if u = sampleHome then QModelIndex.row 1 else QModelIndex.invalid
    indexForItem := fun i => if i.url = sampleHome then QModelIndex.row 1 else QModelIndex.invalid
    itemForIndex := fun i =>
      match i with
      | QModelIndex.row 1 => ⟨false, sampleHome, true⟩
      | QModelIndex.row 2 => ⟨false, ⟨true, true, "file://", "/notes.txt"⟩, false⟩
      | _ => KFileItem.nullItem
    mapToSource := fun i => i
    mapFromSource := fun i => i
    currentIndex := QModelIndex.row 1
    indexAt := fun _ => QModelIndex.invalid
    mouseButtons := 4
    showHiddenFiles := false
    renameInline := false
    dialogAccepted := false
    dialogNewName := ""
    freshDirLister := 1
    freshDolphinModel := 2
    freshProxyModel := 3
    freshTreeView := 4 }

/-- A panel whose components exist, as left by the first show event. -/
def samplePanel : FoldersPanel :=
  { url := sampleRoot
    m_setLeafVisible := false
    m_mouseButtons := Qt.NoButton
    m_dirLister := some 1
    m_dolphinModel := some 2
    m_proxyModel := some 3
    m_treeView := some 4
    m_leafDir := sampleRoot }

/-- A session: the first show event, `setUrl` of the home directory, a mouse press
and two expansion callbacks. -/
def sampleSession : List (Toolkit × Op) :=
  [(sampleToolkit, Op.showEvent false),
   (sampleToolkit, Op.setUrl sampleHome),
   (sampleToolkit, Op.updateMouseButtons),
   (sampleToolkit, Op.expandToDir (QModelIndex.row 1)),
   (sampleToolkit, Op.expandToDir (QModelIndex.row 1))]

/-- The panel at the end of the sample session. -/
def sampleSessionPanel : FoldersPanel :=
  (((FoldersPanel.create KUrl.empty).run sampleSession).map Prod.fst).getD
    (FoldersPanel.create KUrl.empty)

/-- The log of the sample session. -/
def sampleSessionLog : List Step :=
  (((FoldersPanel.create KUrl.empty).run sampleSession).map Prod.snd).getD []

/-- A session without any show event that is not spontaneous. -/
def sampleUnshownSession : List (Toolkit × Op) :=
  [(sampleToolkit, Op.setUrl sampleRemote),
   (sampleToolkit, Op.showEvent true),
   (sampleToolkit, Op.setShowHiddenFiles true)]

/-- The panel at the end of the unshown sample session. -/
def sampleUnshownPanel : FoldersPanel :=
  (((FoldersPanel.create KUrl.empty).run sampleUnshownSession).map Prod.fst).getD
    (FoldersPanel.create KUrl.empty)

/-- The log of the unshown sample session. -/
def sampleUnshownLog : List Step :=
  (((FoldersPanel.create KUrl.empty).run sampleUnshownSession).map Prod.snd).getD []

/-- A session of `setUrl`, show events, `setShowHiddenFiles` and
`updateMouseButtons` only. -/
def sampleLifecycleSession : List (Toolkit × Op) :=
  [(sampleToolkit, Op.setUrl sampleHome),
   (sampleToolkit, Op.showEvent true),
   (sampleToolkit, Op.showEvent false),
   (sampleToolkit, Op.setShowHiddenFiles true),
   (sampleToolkit, Op.updateMouseButtons),
   (sampleToolkit, Op.setUrl sampleRemote),
   (sampleToolkit, Op.showEvent false)]

/-- A session with repeated show events: the first show event, `setUrl` of the home
directory, a second show event that is not spontaneous and a spontaneous one. -/
def sampleShowSession : List (Toolkit × Op) :=
  [(sampleToolkit, Op.showEvent false),
   (sampleToolkit, Op.setUrl sampleHome),
   (sampleToolkit, Op.showEvent false),
   (sampleToolkit, Op.showEvent true)]

/-- The panel at the end of the show sample session. -/
def sampleShowPanel : FoldersPanel :=
  (((FoldersPanel.create KUrl.empty).run sampleShowSession).map Prod.fst).getD
    (FoldersPanel.create KUrl.empty)

/-- The log of the show sample session. -/
def sampleShowLog : List Step :=
  (((FoldersPanel.create KUrl.empty).run sampleShowSession).map Prod.snd).getD []

/-- The panel of the show sample session once shown and sent to the home
directory. -/
def sampleShownHome : FoldersPanel :=
  { samplePanel with url := sampleHome, m_setLeafVisible := true, m_leafDir := sampleHome,
                     m_dirLister := some 1, m_dolphinModel := some 2,
                     m_proxyModel := some 3, m_treeView := some 4,
                     m_mouseButtons := Qt.NoButton }

/-- The third step of the show sample session: a show event that is not
spontaneous on the panel that is already shown. -/
def sampleRepeatedShow : Step :=
  { before := sampleShownHome
    env := sampleToolkit
    op := Op.showEvent false
    calls := [Call.modelExpandToUrl sampleHome, Call.panelShowEvent]
    after := sampleShownHome }

/-! ## Lemmas on single operations -/

open FoldersPanel

/-- The calls `loadTree` makes for `url`. -/
theorem loadTree_eq_some (env : Toolkit) (p p1 : FoldersPanel) (url : KUrl) (c : List Call) :
    loadTree env p url = some (p1, c) ↔
      p.m_dirLister.isSome = true ∧ p.m_dolphinModel.isSome = true ∧
        { p with m_leafDir := url } = p1 ∧
        (if env.listerUrl = baseUrlOf env url then []
         else [Call.listerStop, Call.listerOpenUrl (baseUrlOf env url) OpenUrlFlag.Reload])
            ++ [Call.modelExpandToUrl url] = c := by
  obtain ⟨url0, flag, mb, dl, dm, pm, tv, leaf⟩ := p
  cases dl <;> cases dm <;> simp [loadTree, baseUrlOf, KUrl.setPath]

/-- What `updateActiveView` returns. -/
theorem updateActiveView_eq_some (env : Toolkit) (p p1 : FoldersPanel) (index : QModelIndex)
    (c : List Call) :
    updateActiveView env p index = some (p1, c) ↔
      p.m_proxyModel.isSome = true ∧ p.m_dolphinModel.isSome = true ∧ p = p1 ∧
        (if (env.itemForIndex (env.mapToSource index)).isNull then []
         else [Call.emitChangeUrl (env.itemForIndex (env.mapToSource index)).url
                 p.m_mouseButtons]) = c := by
  obtain ⟨url0, flag, mb, dl, dm, pm, tv, leaf⟩ := p
  cases pm <;> cases dm <;> simp [updateActiveView]
  split <;> simp_all

/-- What `selectLeafDirectory` returns. -/
theorem selectLeafDirectory_eq_some (env : Toolkit) (p p1 : FoldersPanel) (c : List Call) :
    selectLeafDirectory env p = some (p1, c) ↔
      p.m_dolphinModel.isSome = true ∧ p.m_proxyModel.isSome = true ∧
        (((leafIndex env p).isValid = false ∧ p = p1 ∧ [] = c) ∨
         ((leafIndex env p).isValid = true ∧ p.m_treeView.isSome = true ∧
            { p with m_setLeafVisible := false } = p1 ∧
            (if p.m_setLeafVisible then [Call.timerSingleShot 100 Slot.scrollToLeaf] else [])
                ++ [Call.selSetCurrentIndexClearAndSelect (leafIndex env p)] = c)) := by
  obtain ⟨url0, flag, mb, dl, dm, pm, tv, leaf⟩ := p
  cases pm <;> cases dm <;> cases tv <;> cases flag <;>
    cases hv : (env.mapFromSource (env.indexForUrl leaf)).isValid <;>
    simp [selectLeafDirectory, leafIndex, hv]

/-- What the guarded construction in `showEvent` returns. -/
theorem ensureComponents_eq_some (env : Toolkit) (p p1 : FoldersPanel) (c : List Call) :
    ensureComponents env p = some (p1, c) ↔
      (p.m_dirLister.isSome = true ∧ p = p1 ∧ [] = c) ∨
      (allAbsent p = true ∧
        { p with m_dirLister := some env.freshDirLister,
                 m_dolphinModel := some env.freshDolphinModel,
                 m_proxyModel := some env.freshProxyModel,
                 m_treeView := some env.freshTreeView } = p1 ∧
        (createComponents env (create KUrl.empty)).map (fun r => r.2) = some c) := by
  obtain ⟨url0, flag, mb, dl, dm, pm, tv, leaf⟩ := p
  cases dl <;> cases dm <;> cases pm <;> cases tv <;>
    simp [ensureComponents, createComponents, allAbsent, create]

/-- An operation that succeeds on a panel with all components keeps every
component pointer. -/
theorem step_keeps_components (env : Toolkit) (p p1 : FoldersPanel) (op : Op)
    (c : List Call) (h : step env p op = some (p1, c)) (hp : allPresent p = true) :
    p1.m_dirLister = p.m_dirLister ∧ p1.m_dolphinModel = p.m_dolphinModel ∧
      p1.m_proxyModel = p.m_proxyModel ∧ p1.m_treeView = p.m_treeView := by
  cases op <;>
    simp only [step, setShowHiddenFiles, rename, setUrl, panelSetUrl, showEvent,
      contextMenuEvent, keyPressEvent, dropUrls,
      expandToDir, scrollToLeaf, updateMouseButtons] at h <;>
    (repeat' split at h) <;>
    simp [loadTree_eq_some, updateActiveView_eq_some, selectLeafDirectory_eq_some,
      ensureComponents_eq_some, allPresent, allAbsent] at * <;> aesop

/-- An operation keeps the components all absent or all present. -/
theorem step_keeps_shape (env : Toolkit) (p p1 : FoldersPanel) (op : Op)
    (c : List Call) (h : step env p op = some (p1, c))
    (hp : allAbsent p = true ∨ allPresent p = true) :
    allAbsent p1 = true ∨ allPresent p1 = true := by
  cases op <;>
    simp only [step, setShowHiddenFiles, rename, setUrl, panelSetUrl, showEvent,
      contextMenuEvent, keyPressEvent, dropUrls,
      expandToDir, scrollToLeaf, updateMouseButtons] at h <;>
    (repeat' split at h) <;>
    simp [loadTree_eq_some, updateActiveView_eq_some, selectLeafDirectory_eq_some,
      ensureComponents_eq_some, allPresent, allAbsent] at * <;> aesop

/-- On a panel whose listing source exists the leaf directory is the panel's URL,
and every operation keeps it so. -/
theorem step_keeps_leaf (env : Toolkit) (p p1 : FoldersPanel) (op : Op)
    (c : List Call) (h : step env p op = some (p1, c))
    (hp : p.m_dirLister.isSome = true → p.m_leafDir = p.url) :
    p1.m_dirLister.isSome = true → p1.m_leafDir = p1.url := by
  cases op <;>
    simp only [step, setShowHiddenFiles, rename, setUrl, panelSetUrl, showEvent,
      contextMenuEvent, keyPressEvent, dropUrls,
      expandToDir, scrollToLeaf, updateMouseButtons] at h <;>
    (repeat' split at h) <;>
    simp [loadTree_eq_some, updateActiveView_eq_some, selectLeafDirectory_eq_some,
      ensureComponents_eq_some, allPresent, allAbsent] at * <;> aesop

/-- The listing source exists after an operation exactly when it existed before
or the operation is a show event that is not spontaneous. -/
theorem step_lister (env : Toolkit) (p p1 : FoldersPanel) (op : Op)
    (c : List Call) (h : step env p op = some (p1, c)) :
    p1.m_dirLister.isSome = (p.m_dirLister.isSome || op.isFirstHandShow) := by
  cases op <;>
    simp only [step, setShowHiddenFiles, rename, setUrl, panelSetUrl, showEvent,
      contextMenuEvent, keyPressEvent, dropUrls,
      expandToDir, scrollToLeaf, updateMouseButtons] at h <;>
    (repeat' split at h) <;>
    simp [loadTree_eq_some, updateActiveView_eq_some, selectLeafDirectory_eq_some,
      ensureComponents_eq_some, allPresent, allAbsent, Op.isFirstHandShow] at * <;> aesop

/-- The pending-visibility flag after an operation. -/
theorem step_flag (env : Toolkit) (p p1 : FoldersPanel) (op : Op)
    (c : List Call) (h : step env p op = some (p1, c)) :
    p1.m_setLeafVisible =
      (Step.acceptedSetUrlOnShown ⟨p, env, op, c, p1⟩ ||
        (p.m_setLeafVisible && !Step.leafSelected ⟨p, env, op, c, p1⟩)) := by
  cases op <;>
    simp only [step, setShowHiddenFiles, rename, setUrl, panelSetUrl, showEvent,
      contextMenuEvent, keyPressEvent, dropUrls,
      expandToDir, scrollToLeaf, updateMouseButtons] at h <;>
    (repeat' split at h) <;>
    simp [loadTree_eq_some, updateActiveView_eq_some, selectLeafDirectory_eq_some,
      ensureComponents_eq_some, allPresent, allAbsent, Step.acceptedSetUrlOnShown,
      Step.acceptedSetUrl, Step.leafSelected, KUrl.isValid] at * <;> aesop

/-- The timers an operation schedules: one when the flag was set and the leaf was
selected, none otherwise. -/
theorem step_timers (env : Toolkit) (p p1 : FoldersPanel) (op : Op)
    (c : List Call) (h : step env p op = some (p1, c)) :
    timers c = (p.m_setLeafVisible && Step.leafSelected ⟨p, env, op, c, p1⟩).toNat := by
  cases op <;>
    simp only [step, setShowHiddenFiles, rename, setUrl, panelSetUrl, showEvent,
      contextMenuEvent, keyPressEvent, dropUrls,
      expandToDir, scrollToLeaf, updateMouseButtons] at h <;>
    (repeat' split at h) <;>
    simp [loadTree_eq_some, updateActiveView_eq_some, selectLeafDirectory_eq_some,
      ensureComponents_eq_some, allPresent, allAbsent, Step.leafSelected, timers,
      createComponents, create] at * <;> aesop

/-- The cached mouse buttons after an operation. -/
theorem step_buttons (env : Toolkit) (p p1 : FoldersPanel) (op : Op)
    (c : List Call) (h : step env p op = some (p1, c)) :
    p1.m_mouseButtons = lastButtons p.m_mouseButtons [(env, op)] := by
  cases op <;>
    simp only [step, setShowHiddenFiles, rename, setUrl, panelSetUrl, showEvent,
      contextMenuEvent, keyPressEvent, dropUrls,
      expandToDir, scrollToLeaf, updateMouseButtons] at h <;>
    (repeat' split at h) <;>
    simp [loadTree_eq_some, updateActiveView_eq_some, selectLeafDirectory_eq_some,
      ensureComponents_eq_some, allPresent, allAbsent, lastButtons] at * <;> aesop

/-- An operation constructs components or connects signals exactly when it is a
show event that is not spontaneous on a panel without listing source. -/
theorem step_construction (env : Toolkit) (p p1 : FoldersPanel) (op : Op)
    (c : List Call) (h : step env p op = some (p1, c)) :
    c.any Call.isConstruction = (op.isFirstHandShow && p.m_dirLister.isNone) := by
  cases op <;>
    simp only [step, setShowHiddenFiles, rename, setUrl, panelSetUrl, showEvent,
      contextMenuEvent, keyPressEvent, dropUrls,
      expandToDir, scrollToLeaf, updateMouseButtons] at h <;>
    (repeat' split at h) <;>
    simp [loadTree_eq_some, updateActiveView_eq_some, selectLeafDirectory_eq_some,
      ensureComponents_eq_some, allPresent, allAbsent, Op.isFirstHandShow, createComponents,
      create] at * <;> aesop

/-- Without components, an operation other than the first-hand show event makes
no request to the listing source or the model and keeps the leaf directory and
the pending-visibility flag. -/
theorem step_unshown (env : Toolkit) (p p1 : FoldersPanel) (op : Op)
    (c : List Call) (h : step env p op = some (p1, c))
    (hp : allAbsent p = true) (hop : op.isFirstHandShow = false) :
    c.any Call.isTreeWork = false ∧ p1.m_leafDir = p.m_leafDir ∧
      p1.m_setLeafVisible = p.m_setLeafVisible := by
  cases op <;>
    simp only [step, setShowHiddenFiles, rename, setUrl, panelSetUrl, showEvent,
      contextMenuEvent, keyPressEvent, dropUrls,
      expandToDir, scrollToLeaf, updateMouseButtons] at h <;>
    (repeat' split at h) <;>
    simp [loadTree_eq_some, updateActiveView_eq_some, selectLeafDirectory_eq_some,
      ensureComponents_eq_some, allPresent, allAbsent, Op.isFirstHandShow] at * <;> aesop

/-- The operations that can reach a panel never fail while the components are all
absent or all present: the assertions of `showEvent` and `loadTree` hold. -/
theorem step_lifecycle_some (env : Toolkit) (p : FoldersPanel) (op : Op)
    (hop : op.isLifecycle = true) (hp : allAbsent p = true ∨ allPresent p = true) :
    ∃ p1 c, step env p op = some (p1, c) := by
  obtain ⟨url0, flag, mb, dl, dm, pm, tv, leaf⟩ := p
  cases dl <;> cases dm <;> cases pm <;> cases tv <;> simp [allAbsent, allPresent] at hp <;>
    cases op <;> simp [Op.isLifecycle] at hop <;>
    simp [step, setShowHiddenFiles, setUrl, panelSetUrl, showEvent, ensureComponents,
      createComponents, loadTree, updateMouseButtons] <;>
    (repeat' split) <;> simp

/-! ## Lemmas on histories -/

/-- A successful run logs a history from its first panel to its last. -/
theorem run_history (ops : List (Toolkit × Op)) :
    ∀ (p q : FoldersPanel) (log : List Step), run p ops = some (q, log) → History p log q := by
  induction ops with
  | nil =>
    intro p q log h
    simp [run] at h
    obtain ⟨rfl, rfl⟩ := h
    simp [History]
  | cons e rest ih =>
    intro p q log h
    obtain ⟨env, op⟩ := e
    simp only [run] at h
    split at h
    · simp at h
    · rename_i p1 c hstep
      split at h
      · simp at h
      · rename_i q1 log1 hrun
        simp at h
        obtain ⟨rfl, rfl⟩ := h
        exact ⟨rfl, hstep, ih _ _ _ hrun⟩

/-- A history over a concatenated log passes through an intermediate panel. -/
theorem history_append (l1 l2 : List Step) :
    ∀ (p q : FoldersPanel), History p (l1 ++ l2) q ↔ ∃ m, History p l1 m ∧ History m l2 q := by
  induction l1 with
  | nil => intro p q; simp [History]
  | cons s rest ih =>
    intro p q
    show (s.before = p ∧ s.sound ∧ History s.after (rest ++ l2) q) ↔
      ∃ m, (s.before = p ∧ s.sound ∧ History s.after rest m) ∧ History m l2 q
    rw [ih]
    constructor
    · rintro ⟨h1, h2, m, h3, h4⟩
      exact ⟨m, ⟨h1, h2, h3⟩, h4⟩
    · rintro ⟨m, ⟨h1, h2, h3⟩, h4⟩
      exact ⟨h1, h2, m, h3, h4⟩

/-- The initial panel is well formed. -/
theorem create_wellFormed (url : KUrl) : (create url).wellFormed := by
  simp [wellFormed, create, allAbsent]

/-- Every operation keeps the panel well formed. -/
theorem step_wellFormed (env : Toolkit) (p p1 : FoldersPanel) (op : Op) (c : List Call)
    (h : step env p op = some (p1, c)) (hp : p.wellFormed) : p1.wellFormed :=
  ⟨step_keeps_shape env p p1 op c h hp.1, step_keeps_leaf env p p1 op c h hp.2⟩

/-- Along a history from a well-formed panel every panel is well formed. -/
theorem history_wellFormed (log : List Step) :
    ∀ (p q : FoldersPanel), History p log q → p.wellFormed →
      q.wellFormed ∧ ∀ s ∈ log, s.before.wellFormed ∧ s.after.wellFormed := by
  induction log with
  | nil => intro p q h hp; simp [History] at h; subst h; simp [hp]
  | cons s rest ih =>
    intro p q h hp
    obtain ⟨h1, h2, h3⟩ := h
    subst h1
    have hs := step_wellFormed _ _ _ _ _ h2 hp
    obtain ⟨hq, hall⟩ := ih _ _ h3 hs
    refine ⟨hq, ?_⟩
    intro t ht
    rcases List.mem_cons.mp ht with rfl | ht
    · exact ⟨hp, hs⟩
    · exact hall t ht

/-- The listing source exists at the end of a history exactly when it existed at
the start or the history holds a show event that is not spontaneous. -/
theorem history_lister (log : List Step) :
    ∀ (p q : FoldersPanel), History p log q →
      q.m_dirLister.isSome = (p.m_dirLister.isSome || log.any (fun s => s.op.isFirstHandShow)) := by
  induction log with
  | nil => intro p q h; simp [History] at h; subst h; simp
  | cons s rest ih =>
    intro p q h
    obtain ⟨h1, h2, h3⟩ := h
    subst h1
    rw [ih _ _ h3, step_lister _ _ _ _ _ h2]
    simp [Bool.or_assoc]

/-- The pending-visibility flag at the end of a history. -/
theorem history_flag (log : List Step) :
    ∀ (p q : FoldersPanel), History p log q →
      q.m_setLeafVisible =
        (pendingSince Step.acceptedSetUrlOnShown log ||
          (p.m_setLeafVisible && log.all (fun t => !t.leafSelected))) := by
  induction log with
  | nil => intro p q h; simp [History] at h; subst h; simp [pendingSince]
  | cons s rest ih =>
    intro p q h
    obtain ⟨h1, h2, h3⟩ := h
    subst h1
    have hf := step_flag _ _ _ _ _ h2
    rw [ih _ _ h3, hf]
    simp only [pendingSince, List.all_cons]
    cases s.acceptedSetUrlOnShown <;> cases s.leafSelected <;>
      cases s.before.m_setLeafVisible <;>
      cases pendingSince Step.acceptedSetUrlOnShown rest <;>
      cases rest.all (fun t => !t.leafSelected) <;> rfl

/-- The timers of a history: together with the flag at its end they are bounded by
the flag at its start plus the accepted `setUrl` calls made with a listing source. -/
theorem history_timers (log : List Step) :
    ∀ (p q : FoldersPanel), History p log q →
      logTimers log + q.m_setLeafVisible.toNat ≤
        p.m_setLeafVisible.toNat + (log.filter Step.acceptedSetUrlOnShown).length := by
  induction log with
  | nil => intro p q h; simp [History] at h; subst h; simp [logTimers]
  | cons s rest ih =>
    intro p q h
    obtain ⟨h1, h2, h3⟩ := h
    subst h1
    have hf := step_flag _ _ _ _ _ h2
    have ht := step_timers _ _ _ _ _ h2
    have hr := ih _ _ h3
    simp only [logTimers, List.map_cons, List.sum_cons, List.filter_cons] at hr ⊢
    rw [ht]
    rw [hf] at hr
    revert hr
    cases s.acceptedSetUrlOnShown <;> cases s.leafSelected <;>
      cases s.before.m_setLeafVisible <;> simp <;> omega

/-- Unfolding of `lastButtons` at the first operation. -/
theorem lastButtons_cons (start : Nat) (env : Toolkit) (op : Op) (rest : List (Toolkit × Op)) :
    lastButtons start ((env, op) :: rest) = lastButtons (lastButtons start [(env, op)]) rest := by
  cases op <;> rfl

/-- The log of a run records the operations of the run, in order. -/
theorem run_log_ops (ops : List (Toolkit × Op)) :
    ∀ (p q : FoldersPanel) (log : List Step), run p ops = some (q, log) →
      log.map (fun s => (s.env, s.op)) = ops := by
  induction ops with
  | nil =>
    intro p q log h
    simp [run] at h
    simp [h.2.symm]
  | cons e rest ih =>
    intro p q log h
    obtain ⟨env, op⟩ := e
    simp only [run] at h
    split at h
    · simp at h
    · split at h
      · simp at h
      · rename_i q1 log1 hrun
        simp at h
        obtain ⟨rfl, rfl⟩ := h
        simp [ih _ _ _ hrun]

/-- The cached mouse buttons at the end of a history. -/
theorem history_buttons (log : List Step) :
    ∀ (p q : FoldersPanel), History p log q →
      q.m_mouseButtons = lastButtons p.m_mouseButtons (log.map (fun s => (s.env, s.op))) := by
  induction log with
  | nil => intro p q h; simp [History] at h; subst h; simp [lastButtons]
  | cons s rest ih =>
    intro p q h
    obtain ⟨h1, h2, h3⟩ := h
    subst h1
    rw [List.map_cons, lastButtons_cons, ← step_buttons _ _ _ _ _ h2]
    exact ih _ _ h3

/-- A show event on a well-formed panel whose listing source exists returns the
panel as it was. -/
theorem showEvent_shown_keeps_panel (env : Toolkit) (p p1 : FoldersPanel) (sp : Bool)
    (c : List Call) (h : showEvent env p sp = some (p1, c)) (hp : p.wellFormed)
    (hl : p.m_dirLister.isSome = true) : p1 = p := by
  have hleaf := hp.2 hl
  obtain ⟨url0, flag, mb, dl, dm, pm, tv, leaf⟩ := p
  simp at hleaf
  subst hleaf
  cases dl <;> simp at hl
  cases sp <;> simp [showEvent, ensureComponents] at h
  · split at h
    · simp at h
    · rename_i p2 c2 hload
      simp [loadTree_eq_some] at hload
      simp at h
      rw [← h.1, ← hload.2.1]
  · exact h.1.symm

/-- A sequence of lifecycle operations never fails on a panel whose components are
all absent or all present. -/
theorem run_lifecycle_some (ops : List (Toolkit × Op)) :
    ∀ (p : FoldersPanel), (∀ e ∈ ops, e.2.isLifecycle = true) →
      (allAbsent p = true ∨ allPresent p = true) → ∃ q log, run p ops = some (q, log) := by
  induction ops with
  | nil => intro p _ _; exact ⟨p, [], rfl⟩
  | cons e rest ih =>
    intro p hops hp
    obtain ⟨env, op⟩ := e
    have hop : op.isLifecycle = true := hops (env, op) (List.mem_cons_self _ _)
    obtain ⟨p1, c, hstep⟩ := step_lifecycle_some env p op hop hp
    have hp1 := step_keeps_shape env p p1 op c hstep hp
    obtain ⟨q, log, hrun⟩ := ih p1 (fun e he => hops e (List.mem_cons_of_mem _ he)) hp1
    exact ⟨q, ⟨p, env, op, c, p1⟩ :: log, by simp [run, hstep, hrun]⟩

/-- Every step of a history is sound. -/
theorem history_sound (log : List Step) :
    ∀ (p q : FoldersPanel), History p log q → ∀ s ∈ log, s.sound := by
  induction log with
  | nil => intro p q _ s hs; simp at hs
  | cons t rest ih =>
    intro p q h s hs
    obtain ⟨_, h2, h3⟩ := h
    rcases List.mem_cons.mp hs with rfl | hs
    · exact h2
    · exact ih _ _ h3 s hs

/-- Without components, an operation other than the first-hand show event leaves
the panel without components. -/
theorem step_unshown_absent (env : Toolkit) (p p1 : FoldersPanel) (op : Op)
    (c : List Call) (h : step env p op = some (p1, c))
    (hp : allAbsent p = true) (hop : op.isFirstHandShow = false) : allAbsent p1 = true := by
  have hl := step_lister env p p1 op c h
  rcases step_keeps_shape env p p1 op c h (Or.inl hp) with h1 | h1
  · exact h1
  · simp [allAbsent, allPresent, hop] at hp h1 hl
    simp [hp.1.1.1] at hl
    simp [hl] at h1

/-- A history without first-hand show event, started without components, ends
without components, makes no request to the listing source or the model, and
keeps the leaf directory and the pending-visibility flag. -/
theorem history_unshown (log : List Step) :
    ∀ (p q : FoldersPanel), History p log q → allAbsent p = true →
      (∀ s ∈ log, s.op.isFirstHandShow = false) →
      allAbsent q = true ∧ q.m_leafDir = p.m_leafDir ∧
        q.m_setLeafVisible = p.m_setLeafVisible ∧
        ∀ s ∈ log, s.calls.any Call.isTreeWork = false := by
  induction log with
  | nil => intro p q h hp _; simp [History] at h; subst h; simp [hp]
  | cons s rest ih =>
    intro p q h hp hno
    obtain ⟨h1, h2, h3⟩ := h
    subst h1
    have hop := hno s (List.mem_cons_self _ _)
    have ha := step_unshown_absent _ _ _ _ _ h2 hp hop
    obtain ⟨ht, hleaf, hflag⟩ := step_unshown _ _ _ _ _ h2 hp hop
    obtain ⟨hq, hl, hf, hall⟩ := ih _ _ h3 ha (fun t ht => hno t (List.mem_cons_of_mem _ ht))
    refine ⟨hq, hl.trans hleaf, hf.trans hflag, ?_⟩
    intro t htm
    rcases List.mem_cons.mp htm with rfl | htm
    · exact ht
    · exact hall t htm

/-- Closed form of `loadTree` on a panel with its components. -/
theorem loadTree_of_present (env : Toolkit) (p : FoldersPanel) (u : KUrl)
    (hp : allPresent p = true) :
    loadTree env p u =
      some ({ p with m_leafDir := u },
            (if env.listerUrl = baseUrlOf env u then []
             else [Call.listerStop, Call.listerOpenUrl (baseUrlOf env u) OpenUrlFlag.Reload])
              ++ [Call.modelExpandToUrl u]) := by
  rw [loadTree_eq_some]
  simp [allPresent] at hp
  simp [hp]

/-- An operation other than the show event that creates the components keeps
every component pointer. -/
theorem step_keeps_pointers (env : Toolkit) (p p1 : FoldersPanel) (op : Op)
    (c : List Call) (h : step env p op = some (p1, c))
    (hno : (op.isFirstHandShow && p.m_dirLister.isNone) = false) :
    p1.m_dirLister = p.m_dirLister ∧ p1.m_dolphinModel = p.m_dolphinModel ∧
      p1.m_proxyModel = p.m_proxyModel ∧ p1.m_treeView = p.m_treeView := by
  cases op <;>
    simp only [step, setShowHiddenFiles, rename, setUrl, panelSetUrl, showEvent,
      contextMenuEvent, keyPressEvent, dropUrls,
      expandToDir, scrollToLeaf, updateMouseButtons] at h <;>
    (repeat' split at h) <;>
    simp [loadTree_eq_some, updateActiveView_eq_some, selectLeafDirectory_eq_some,
      ensureComponents_eq_some, allPresent, allAbsent, Op.isFirstHandShow] at * <;> aesop

/-- Closed form of the show event that is not spontaneous on a panel without
components: every component is constructed, every connection made, and the tree
is loaded for the panel's URL. -/
theorem showEvent_first_outcome (env : Toolkit) (p : FoldersPanel)
    (hp : allAbsent p = true) :
    showEvent env p false =
      some ({ p with m_dirLister := some env.freshDirLister,
                     m_dolphinModel := some env.freshDolphinModel,
                     m_proxyModel := some env.freshProxyModel,
                     m_treeView := some env.freshTreeView,
                     m_leafDir := p.url },
            [Call.newDirLister env.freshDirLister,
             Call.listerSetDirOnlyMode true,
             Call.listerSetAutoUpdate true,
             Call.listerSetMainWindow,
             Call.listerSetDelayedMimeTypes true,
             Call.listerSetAutoErrorHandlingEnabled false,
             Call.listerSetShowingDotFiles env.showHiddenFiles,
             Call.newDolphinModel env.freshDolphinModel,
             Call.modelSetDirLister env.freshDirLister,
             Call.modelSetDropsAllowedOnDirectory,
             Call.connect Signal.expand Slot.expandToDir,
             Call.newProxyModel env.freshProxyModel,
             Call.proxySetSourceModel env.freshDolphinModel,
             Call.newTreeView env.freshTreeView,
             Call.viewSetModel env.freshProxyModel,
             Call.proxySetSortingByName,
             Call.proxySetSortOrderAscending,
             Call.newFolderExpander env.freshTreeView env.freshProxyModel,
             Call.connect Signal.clicked Slot.updateActiveView,
             Call.connect Signal.urlsDropped Slot.dropUrls,
             Call.connect Signal.pressed Slot.updateMouseButtons,
             Call.newLayout,
             Call.layoutSetMargin 0,
             Call.layoutAddWidget env.freshTreeView]
            ++ (if env.listerUrl = baseUrlOf env p.url then []
                else [Call.listerStop,
                      Call.listerOpenUrl (baseUrlOf env p.url) OpenUrlFlag.Reload])
            ++ [Call.modelExpandToUrl p.url, Call.panelShowEvent]) := by
  obtain ⟨url0, flag, mb, dl, dm, pm, tv, leaf⟩ := p
  cases dl <;> cases dm <;> cases pm <;> cases tv <;> simp [allAbsent] at hp
  by_cases hb : env.listerUrl = baseUrlOf env url0 <;>
    simp [showEvent, ensureComponents, createComponents, loadTree_of_present, hb, allPresent]

/-- Closed form of a show event on a well-formed panel whose listing source exists:
the panel is kept, a spontaneous event only reaches the base class, and one that
is not spontaneous loads the tree for the panel's URL again. -/
theorem showEvent_shown_outcome (env : Toolkit) (p : FoldersPanel) (sp : Bool)
    (hp : p.wellFormed) (hl : p.m_dirLister.isSome = true) :
    showEvent env p sp =
      some (p, if sp then [Call.panelShowEvent]
               else (if env.listerUrl = baseUrlOf env p.url then []
                     else [Call.listerStop,
                           Call.listerOpenUrl (baseUrlOf env p.url) OpenUrlFlag.Reload])
                    ++ [Call.modelExpandToUrl p.url, Call.panelShowEvent]) := by
  have hleaf := hp.2 hl
  have hall : allPresent p = true := by
    rcases hp.1 with h | h
    · simp [allAbsent] at h
      simp [h.1.1.1] at hl
    · exact h
  obtain ⟨url0, flag, mb, dl, dm, pm, tv, leaf⟩ := p
  simp at hleaf
  subst hleaf
  cases dl <;> simp at hl
  cases sp
  · by_cases hb : env.listerUrl = baseUrlOf env leaf <;>
      simp [showEvent, ensureComponents, loadTree_of_present, hall, hb]
  · simp [showEvent]

/-! ## The operations of the panel -/

/-- C1: `setUrl` with a URL that is invalid or equal to the panel's current URL
returns the panel as it was (current URL, leaf directory, pending-visibility flag,
cached mouse buttons and the four component pointers) and makes no call at all,
whether or not the panel has been shown. -/
theorem setUrl_rejected_is_noop (env : Toolkit) (p : FoldersPanel) (u : KUrl)
    (h : u.isValid = false ∨ u = p.url) : setUrl env p u = some (p, []) := by
  unfold setUrl
  rcases h with h | h <;> simp [h]

/-- Witness for C1: the invalid empty URL on a shown panel. -/
theorem setUrl_rejected_is_noop_witness :
    (KUrl.empty.isValid = false ∨ KUrl.empty = samplePanel.url) ∧
      setUrl sampleToolkit samplePanel KUrl.empty = some (samplePanel, []) :=
  ⟨Or.inl rfl, setUrl_rejected_is_noop sampleToolkit samplePanel KUrl.empty (Or.inl rfl)⟩

/-- C3: on a panel with its components, `dropUrls` on a row whose item is a
directory delegates to the drag-and-drop helper exactly once, with the row's item,
its URL and the drop event; on a row whose item is not a directory, and on an
invalid index, it delegates nothing; the panel is returned unchanged in all these
cases.  The only failure is the assertion of the source, a valid index whose item
is null, and nothing is delegated there either. -/
theorem dropUrls_delegates_on_directory (env : Toolkit) (p : FoldersPanel)
    (index : QModelIndex) (event : Nat) (hp : allPresent p = true) :
    dropUrls env p index event =
      if index.isValid && (env.itemForIndex (env.mapToSource index)).isNull then none
      else some (p, if index.isValid && (env.itemForIndex (env.mapToSource index)).isDir
                    then [Call.dndDropUrls (env.itemForIndex (env.mapToSource index))
                            (env.itemForIndex (env.mapToSource index)).url event]
                    else []) := by
  obtain ⟨url0, flag, mb, dl, dm, pm, tv, leaf⟩ := p
  cases dl <;> cases dm <;> cases pm <;> cases tv <;> simp [allPresent] at hp
  cases hv : index.isValid <;>
    cases hn : (env.itemForIndex (env.mapToSource index)).isNull <;>
    cases hd : (env.itemForIndex (env.mapToSource index)).isDir <;>
    simp [dropUrls, hv, hn, hd]

/-- Witness for C3: a drop on the directory row of the sample model. -/
theorem dropUrls_delegates_on_directory_witness :
    allPresent samplePanel = true ∧
    dropUrls sampleToolkit samplePanel (QModelIndex.row 1) 7 =
      some (samplePanel, [Call.dndDropUrls ⟨false, sampleHome, true⟩ sampleHome 7]) :=
  ⟨rfl, (dropUrls_delegates_on_directory sampleToolkit samplePanel (QModelIndex.row 1) 7
    rfl).trans (by decide)⟩

/-- C4: on a panel with its components, `loadTree(u)` stores `u` as the leaf
directory and changes nothing else; with the base URL being the file-system root
for a local `u` and `u` with its path replaced by "/" otherwise, it calls `stop`
and then `openUrl(base, Reload)` on the listing source exactly when the listing
source's URL differs from the base, and in both cases ends with exactly one
`expandToUrl(u)` on the model. -/
theorem loadTree_reloads_iff_base_differs (env : Toolkit) (p : FoldersPanel) (u : KUrl)
    (hp : allPresent p = true) :
    loadTree env p u =
      some ({ p with m_leafDir := u },
            (if env.listerUrl = baseUrlOf env u then []
             else [Call.listerStop, Call.listerOpenUrl (baseUrlOf env u) OpenUrlFlag.Reload])
              ++ [Call.modelExpandToUrl u]) :=
  loadTree_of_present env p u hp

/-- Witness for C4: a remote URL on a listing source rooted at the local root. -/
theorem loadTree_reloads_iff_base_differs_witness :
    allPresent samplePanel = true ∧
    loadTree sampleToolkit samplePanel sampleRemote =
      some ({ samplePanel with m_leafDir := sampleRemote },
            [Call.listerStop,
             Call.listerOpenUrl ⟨true, false, "ftp://host", "/"⟩ OpenUrlFlag.Reload,
             Call.modelExpandToUrl sampleRemote]) :=
  ⟨rfl, (loadTree_reloads_iff_base_differs sampleToolkit samplePanel sampleRemote rfl).trans
    (by decide)⟩

/-- C9: on a panel with its components, `selectLeafDirectory` returns the panel
unchanged and makes no call when the leaf directory does not resolve to a valid
view index; when it resolves, the resolved index is set as current index with
clear-and-select whether or not the pending-visibility flag was set (the timer is
the only difference).  Hence after an accepted `setUrl(X)` and an expansion
callback at which `X` resolves, the row of `X` is the only selected row. -/
theorem selectLeafDirectory_selects_leaf (env : Toolkit) (p : FoldersPanel)
    (hp : allPresent p = true) :
    ((leafIndex env p).isValid = false → selectLeafDirectory env p = some (p, [])) ∧
    ((leafIndex env p).isValid = true →
      selectLeafDirectory env p =
        some ({ p with m_setLeafVisible := false },
              (if p.m_setLeafVisible then [Call.timerSingleShot 100 Slot.scrollToLeaf] else [])
                ++ [Call.selSetCurrentIndexClearAndSelect (leafIndex env p)])) ∧
    (∀ (env1 : Toolkit) (X : KUrl) (index : QModelIndex) (sel : List QModelIndex),
      X.isValid = true → X ≠ p.url →
      (env.mapFromSource (env.indexForUrl X)).isValid = true →
      ∃ p1 c1 p2 c2, setUrl env1 p X = some (p1, c1) ∧
        expandToDir env p1 index = some (p2, c2) ∧
        selectionAfter sel (c1 ++ c2) = [env.mapFromSource (env.indexForUrl X)]) := by
  obtain ⟨url0, flag, mb, dl, dm, pm, tv, leaf⟩ := p
  cases dl <;> cases dm <;> cases pm <;> cases tv <;> simp [allPresent] at hp
  refine ⟨?_, ?_, ?_⟩
  · intro hv
    simp [selectLeafDirectory_eq_some, hv]
  · intro hv
    simp [selectLeafDirectory_eq_some, hv]
  · intro env1 X index sel hX hne hv
    rename_i a b c d
    have hne2 : ¬ X = url0 := hne
    refine ⟨⟨X, true, mb, some a, some b, some c, some d, X⟩,
      (if env1.listerUrl = baseUrlOf env1 X then []
       else [Call.listerStop, Call.listerOpenUrl (baseUrlOf env1 X) OpenUrlFlag.Reload])
        ++ [Call.modelExpandToUrl X],
      ⟨X, false, mb, some a, some b, some c, some d, X⟩,
      Call.viewSetExpanded index true ::
        ([Call.timerSingleShot 100 Slot.scrollToLeaf,
          Call.selSetCurrentIndexClearAndSelect (env.mapFromSource (env.indexForUrl X))]
          ++ [Call.viewResizeNameColumn]), ?_, ?_, ?_⟩
    · simp [setUrl, panelSetUrl, loadTree_eq_some, hX, hne2]
    · simp [expandToDir, selectLeafDirectory, hv]
    · by_cases hb : env1.listerUrl = baseUrlOf env1 X <;> simp [selectionAfter, hb]

/-- Witness for C9: the sample panel, whose leaf directory does not resolve, and
`setUrl` of the home directory, which does. -/
theorem selectLeafDirectory_selects_leaf_witness :
    allPresent samplePanel = true ∧
    selectLeafDirectory sampleToolkit samplePanel = some (samplePanel, []) ∧
    ∃ p1 c1 p2 c2, setUrl sampleToolkit samplePanel sampleHome = some (p1, c1) ∧
      expandToDir sampleToolkit p1 (QModelIndex.row 1) = some (p2, c2) ∧
      selectionAfter [] (c1 ++ c2) = [QModelIndex.row 1] :=
  ⟨rfl, (selectLeafDirectory_selects_leaf sampleToolkit samplePanel rfl).1 rfl,
   (selectLeafDirectory_selects_leaf sampleToolkit samplePanel rfl).2.2 sampleToolkit
     sampleHome (QModelIndex.row 1) [] rfl (by decide) rfl⟩

/-! ## Sequences of operations from construction -/

/-- C2: in every state reached from construction in which the components exist,
activating row `index` (`updateActiveView`, also reached by Enter or Return on the
current index) emits no `changeUrl` when the item mapped from the index through the
proxy and the model is null, and exactly one `changeUrl` when it is not, carrying
the item's URL and the mouse buttons stored by the most recent
`updateMouseButtons` (`Qt::NoButton` if there was none); the panel is unchanged. -/
theorem updateActiveView_notifies_once (u0 : KUrl) (ops : List (Toolkit × Op))
    (p : FoldersPanel) (log : List Step) (hrun : run (create u0) ops = some (p, log))
    (hshown : p.m_dirLister.isSome = true) (env : Toolkit) (index : QModelIndex) :
    updateActiveView env p index =
      some (p, if (env.itemForIndex (env.mapToSource index)).isNull then []
               else [Call.emitChangeUrl (env.itemForIndex (env.mapToSource index)).url
                       (lastButtons Qt.NoButton ops)]) ∧
    ∀ key, key = Qt.Key_Enter ∨ key = Qt.Key_Return →
      keyPressEvent env p key =
        some (p, Call.eventAccept ::
          (if (env.itemForIndex (env.mapToSource env.currentIndex)).isNull then []
           else [Call.emitChangeUrl (env.itemForIndex (env.mapToSource env.currentIndex)).url
                   (lastButtons Qt.NoButton ops)])) := by
  have hist := run_history ops _ _ _ hrun
  have hwf := (history_wellFormed log _ _ hist (create_wellFormed u0)).1
  have hb := history_buttons log _ _ hist
  rw [run_log_ops ops _ _ _ hrun] at hb
  have hb2 : p.m_mouseButtons = lastButtons Qt.NoButton ops := hb
  have hall : allPresent p = true := by
    rcases hwf.1 with h | h
    · simp [allAbsent] at h
      simp [h.1.1.1] at hshown
    · exact h
  simp [allPresent] at hall
  have key1 : ∀ i, updateActiveView env p i =
      some (p, if (env.itemForIndex (env.mapToSource i)).isNull then []
               else [Call.emitChangeUrl (env.itemForIndex (env.mapToSource i)).url
                       (lastButtons Qt.NoButton ops)]) := by
    intro i
    rw [updateActiveView_eq_some]
    simp [hall, hb2]
  refine ⟨key1 index, ?_⟩
  intro key hkey
  have hk : (key == Qt.Key_Enter || key == Qt.Key_Return) = true := by
    rcases hkey with h | h <;> simp [h]
  obtain ⟨v, hv⟩ := Option.isSome_iff_exists.mp hall.2
  simp only [keyPressEvent, hk, if_true, hv, key1]

/-- Witness for C2: Enter on the directory row at the end of the sample session. -/
theorem updateActiveView_notifies_once_witness :
    run (create KUrl.empty) sampleSession = some (sampleSessionPanel, sampleSessionLog) ∧
    sampleSessionPanel.m_dirLister.isSome = true ∧
    updateActiveView sampleToolkit sampleSessionPanel (QModelIndex.row 1) =
      some (sampleSessionPanel, [Call.emitChangeUrl sampleHome 4]) :=
  ⟨rfl, rfl, (updateActiveView_notifies_once KUrl.empty sampleSession sampleSessionPanel
    sampleSessionLog rfl rfl sampleToolkit (QModelIndex.row 1)).1.trans (by decide)⟩

/-- C5: on a panel reached from construction without any show event that is not
spontaneous, no step so far made a request to the listing source or the model, and
`setUrl(u)` with a valid `u` different from the current URL only replaces the
panel's current URL (leaf directory, flag and the rest are kept) and makes no call;
the show event that follows constructs the components and loads the tree for the
then-current URL `u`. -/
theorem setUrl_before_first_show (u0 : KUrl) (ops : List (Toolkit × Op))
    (p : FoldersPanel) (log : List Step) (hrun : run (create u0) ops = some (p, log))
    (hnever : ∀ s ∈ log, s.op.isFirstHandShow = false)
    (env : Toolkit) (u : KUrl) (hv : u.isValid = true) (hne : u ≠ p.url) :
    (∀ s ∈ log, s.calls.any Call.isTreeWork = false) ∧
    setUrl env p u = some ({ p with url := u }, []) ∧
    ∀ env2 : Toolkit, ∃ q c, showEvent env2 { p with url := u } false = some (q, c) ∧
      q.url = u ∧ q.m_leafDir = u ∧ allPresent q = true ∧
      c.filter Call.isTreeWork =
        (if env2.listerUrl = baseUrlOf env2 u then []
         else [Call.listerStop, Call.listerOpenUrl (baseUrlOf env2 u) OpenUrlFlag.Reload])
          ++ [Call.modelExpandToUrl u] := by
  have hist := run_history ops _ _ _ hrun
  obtain ⟨habs, _, _, hwork⟩ :=
    history_unshown log _ _ hist (by simp [create, allAbsent]) hnever
  obtain ⟨url0, flag, mb, dl, dm, pm, tv, leaf⟩ := p
  cases dl <;> cases dm <;> cases pm <;> cases tv <;> simp [allAbsent] at habs
  have hne2 : ¬ u = url0 := hne
  refine ⟨hwork, ?_, ?_⟩
  · simp [setUrl, panelSetUrl, hv, hne2]
  · intro env2
    by_cases hb : env2.listerUrl = baseUrlOf env2 u <;>
      simp [showEvent, ensureComponents, createComponents, loadTree_of_present, hb, allPresent] <;>
      refine ⟨_, _, ⟨rfl, rfl⟩, ?_⟩ <;> simp

/-- Witness for C5: `setUrl` of the home directory after the unshown sample
session. -/
theorem setUrl_before_first_show_witness :
    run (create KUrl.empty) sampleUnshownSession = some (sampleUnshownPanel, sampleUnshownLog) ∧
    (∀ s ∈ sampleUnshownLog, s.op.isFirstHandShow = false) ∧
    sampleHome.isValid = true ∧ sampleHome ≠ sampleUnshownPanel.url ∧
    setUrl sampleToolkit sampleUnshownPanel sampleHome =
      some ({ sampleUnshownPanel with url := sampleHome }, []) :=
  ⟨rfl, by decide, rfl, by decide, (setUrl_before_first_show KUrl.empty sampleUnshownSession sampleUnshownPanel
    sampleUnshownLog rfl (by decide) sampleToolkit sampleHome rfl (by decide)).2.1⟩

/-- C6: in the log of every run from construction, every stretch of steps that
holds no accepted `setUrl` call (in particular the stretch between two consecutive
accepted calls and the one after the last) schedules at most one `scrollToLeaf`
timer, and the timers scheduled in the whole log are at most as many as the
accepted `setUrl` calls made while the listing source existed. -/
theorem scroll_timer_at_most_once (u0 : KUrl) (ops : List (Toolkit × Op))
    (p : FoldersPanel) (log : List Step) (hrun : run (create u0) ops = some (p, log)) :
    (∀ l1 l2 l3 : List Step, log = l1 ++ l2 ++ l3 →
      (∀ s ∈ l2, s.acceptedSetUrl = false) → logTimers l2 ≤ 1) ∧
    logTimers log ≤ (log.filter Step.acceptedSetUrlOnShown).length := by
  have hist := run_history ops _ _ _ hrun
  constructor
  · intro l1 l2 l3 hlog hno
    subst hlog
    obtain ⟨m2, h12, _⟩ := (history_append (l1 ++ l2) l3 _ _).mp hist
    obtain ⟨m1, _, h2⟩ := (history_append l1 l2 _ _).mp h12
    have ht := history_timers l2 _ _ h2
    have hnone : l2.filter Step.acceptedSetUrlOnShown = [] := by
      rw [List.filter_eq_nil_iff]
      intro s hs
      simp [Step.acceptedSetUrlOnShown, hno s hs]
    rw [hnone] at ht
    have : m1.m_setLeafVisible.toNat ≤ 1 := Bool.toNat_le _
    simp at ht
    omega
  · have ht := history_timers log _ _ hist
    simp [create] at ht
    omega

/-- Witness for C6: the sample session schedules one timer for its one accepted
`setUrl`. -/
theorem scroll_timer_at_most_once_witness :
    run (create KUrl.empty) sampleSession = some (sampleSessionPanel, sampleSessionLog) ∧
    logTimers sampleSessionLog ≤ (sampleSessionLog.filter Step.acceptedSetUrlOnShown).length :=
  ⟨rfl, (scroll_timer_at_most_once KUrl.empty sampleSession sampleSessionPanel
    sampleSessionLog rfl).2⟩

/-- C7, as stated, fails: after a fresh `setUrl` on a panel that was never shown the
pending-visibility flag is still false, although a fresh `setUrl` call has been
made and no leaf selection has happened since. -/
theorem pending_flag_false_after_unshown_setUrl :
    ((create KUrl.empty).run [(sampleToolkit, Op.setUrl sampleHome)]).map
      (fun r => (r.1.m_setLeafVisible, pendingSince Step.acceptedSetUrl r.2)) =
      some (false, true) := by
  decide

/-- C7, amended: in every state reached from construction the pending-visibility
flag is true exactly when an accepted `setUrl` call has been made while the listing
source existed and no successful leaf selection has happened since that call. -/
theorem pending_flag_tracks_setUrl_on_shown (u0 : KUrl) (ops : List (Toolkit × Op))
    (p : FoldersPanel) (log : List Step) (hrun : run (create u0) ops = some (p, log)) :
    p.m_setLeafVisible = pendingSince Step.acceptedSetUrlOnShown log := by
  have hist := run_history ops _ _ _ hrun
  rw [history_flag log _ _ hist]
  simp [create]

/-- Witness for C7, amended: at the end of the sample session the flag is clear. -/
theorem pending_flag_tracks_setUrl_on_shown_witness :
    run (create KUrl.empty) sampleSession = some (sampleSessionPanel, sampleSessionLog) ∧
    sampleSessionPanel.m_setLeafVisible =
      pendingSince Step.acceptedSetUrlOnShown sampleSessionLog :=
  ⟨rfl, pending_flag_tracks_setUrl_on_shown KUrl.empty sampleSession sampleSessionPanel
    sampleSessionLog rfl⟩

/-- C8: in the log of every run from construction, a step constructs components or
connects signals exactly when it is the first show event that is not spontaneous.
That step starts from a panel without components, sets the four pointers to the
newly constructed listing source, model, proxy and view, and makes exactly the
construction calls and the four signal connections of the source before loading
the tree.  Every other step keeps the four pointers.  A show event on a panel whose
listing source exists constructs nothing, connects nothing and leaves the panel as
it was: a spontaneous one only reaches the base class, one that is not spontaneous
only loads the tree for the panel's URL again. -/
theorem showEvent_constructs_once (u0 : KUrl) (ops : List (Toolkit × Op))
    (p : FoldersPanel) (log : List Step) (hrun : run (create u0) ops = some (p, log)) :
    ∀ (l1 : List Step) (s : Step) (l2 : List Step), log = l1 ++ s :: l2 →
      s.calls.any Call.isConstruction =
        (s.op.isFirstHandShow && l1.all (fun t => !t.op.isFirstHandShow)) ∧
      ((s.op.isFirstHandShow && l1.all (fun t => !t.op.isFirstHandShow)) = true →
        allAbsent s.before = true ∧
        s.after = { s.before with m_dirLister := some s.env.freshDirLister,
                                  m_dolphinModel := some s.env.freshDolphinModel,
                                  m_proxyModel := some s.env.freshProxyModel,
                                  m_treeView := some s.env.freshTreeView,
                                  m_leafDir := s.before.url } ∧
        s.calls =
          [Call.newDirLister s.env.freshDirLister,
           Call.listerSetDirOnlyMode true,
           Call.listerSetAutoUpdate true,
           Call.listerSetMainWindow,
           Call.listerSetDelayedMimeTypes true,
           Call.listerSetAutoErrorHandlingEnabled false,
           Call.listerSetShowingDotFiles s.env.showHiddenFiles,
           Call.newDolphinModel s.env.freshDolphinModel,
           Call.modelSetDirLister s.env.freshDirLister,
           Call.modelSetDropsAllowedOnDirectory,
           Call.connect Signal.expand Slot.expandToDir,
           Call.newProxyModel s.env.freshProxyModel,
           Call.proxySetSourceModel s.env.freshDolphinModel,
           Call.newTreeView s.env.freshTreeView,
           Call.viewSetModel s.env.freshProxyModel,
           Call.proxySetSortingByName,
           Call.proxySetSortOrderAscending,
           Call.newFolderExpander s.env.freshTreeView s.env.freshProxyModel,
           Call.connect Signal.clicked Slot.updateActiveView,
           Call.connect Signal.urlsDropped Slot.dropUrls,
           Call.connect Signal.pressed Slot.updateMouseButtons,
           Call.newLayout,
           Call.layoutSetMargin 0,
           Call.layoutAddWidget s.env.freshTreeView]
          ++ (if s.env.listerUrl = baseUrlOf s.env s.before.url then []
              else [Call.listerStop,
                    Call.listerOpenUrl (baseUrlOf s.env s.before.url) OpenUrlFlag.Reload])
          ++ [Call.modelExpandToUrl s.before.url, Call.panelShowEvent]) ∧
      ((s.op.isFirstHandShow && l1.all (fun t => !t.op.isFirstHandShow)) = false →
        s.after.m_dirLister = s.before.m_dirLister ∧
        s.after.m_dolphinModel = s.before.m_dolphinModel ∧
        s.after.m_proxyModel = s.before.m_proxyModel ∧
        s.after.m_treeView = s.before.m_treeView) ∧
      (∀ sp : Bool, s.op = Op.showEvent sp → s.before.m_dirLister.isSome = true →
        s.after = s.before ∧ s.calls.any Call.isConstruction = false ∧
        s.calls =
          if sp then [Call.panelShowEvent]
          else (if s.env.listerUrl = baseUrlOf s.env s.before.url then []
                else [Call.listerStop,
                      Call.listerOpenUrl (baseUrlOf s.env s.before.url) OpenUrlFlag.Reload])
               ++ [Call.modelExpandToUrl s.before.url, Call.panelShowEvent]) := by
  intro l1 s l2 hlog
  subst hlog
  have hist := run_history ops _ _ _ hrun
  obtain ⟨m, h1, h2⟩ := (history_append l1 (s :: l2) _ _).mp hist
  obtain ⟨hb, hs, _⟩ := h2
  subst hb
  have hwf := (history_wellFormed l1 _ _ h1 (create_wellFormed u0)).1
  have hl := history_lister l1 _ _ h1
  have hc := step_construction _ _ _ _ _ hs
  have hnone : s.before.m_dirLister.isNone = l1.all (fun t => !t.op.isFirstHandShow) := by
    rw [← List.not_any_eq_all_not]
    cases hd : s.before.m_dirLister <;> simp [hd, create] at hl ⊢
    · simpa using hl
    · simpa using hl
  refine ⟨by rw [hc, hnone], ?_, ?_, ?_⟩
  · intro hfirst
    rw [← hnone] at hfirst
    simp only [Bool.and_eq_true] at hfirst
    obtain ⟨hop, hln⟩ := hfirst
    have habs : allAbsent s.before = true := by
      rcases hwf.1 with h | h
      · exact h
      · simp [allPresent] at h
        cases hd : s.before.m_dirLister <;> simp [hd] at hln h
    have hshow : s.op = Op.showEvent false := by
      cases hop2 : s.op <;> simp [hop2, Op.isFirstHandShow] at hop
      rename_i sp
      cases sp <;> simp [Op.isFirstHandShow] at hop
      rfl
    have hs2 : showEvent s.env s.before false = some (s.after, s.calls) := by
      have := hs
      simp only [Step.sound, hshow, step] at this
      exact this
    rw [showEvent_first_outcome s.env s.before habs] at hs2
    simp only [Option.some.injEq, Prod.mk.injEq] at hs2
    exact ⟨habs, hs2.1.symm, hs2.2.symm⟩
  · intro hno
    rw [← hnone] at hno
    exact step_keeps_pointers _ _ _ _ _ hs hno
  · intro sp hop hsome
    have hs2 : showEvent s.env s.before sp = some (s.after, s.calls) := by
      have := hs
      simp only [Step.sound, hop, step] at this
      exact this
    rw [showEvent_shown_outcome s.env s.before sp hwf hsome] at hs2
    simp only [Option.some.injEq, Prod.mk.injEq] at hs2
    refine ⟨hs2.1.symm, ?_, hs2.2.symm⟩
    rw [hc]
    cases hd : s.before.m_dirLister <;> simp [hd] at hsome ⊢

/-- Witness for C8: in the show sample session the first step starts without
components and constructs them, and the third step is a show event on the panel
already shown, which keeps the panel and only loads the tree again. -/
theorem showEvent_constructs_once_witness :
    run (create KUrl.empty) sampleShowSession = some (sampleShowPanel, sampleShowLog) ∧
    sampleShowLog = sampleShowLog.take 2 ++ sampleRepeatedShow :: sampleShowLog.drop 3 ∧
    sampleRepeatedShow.op = Op.showEvent false ∧
    sampleRepeatedShow.before.m_dirLister.isSome = true ∧
    sampleRepeatedShow.after = sampleRepeatedShow.before ∧
    sampleRepeatedShow.calls.any Call.isConstruction = false ∧
    (sampleShowLog.map (fun s => s.calls.any Call.isConstruction)) =
      [true, false, false, false] :=
  ⟨rfl, rfl, rfl, rfl,
   ((showEvent_constructs_once KUrl.empty sampleShowSession sampleShowPanel sampleShowLog rfl
      (sampleShowLog.take 2) sampleRepeatedShow (sampleShowLog.drop 3) rfl).2.2.2
      false rfl rfl).1,
   ((showEvent_constructs_once KUrl.empty sampleShowSession sampleShowPanel sampleShowLog rfl
      (sampleShowLog.take 2) sampleRepeatedShow (sampleShowLog.drop 3) rfl).2.2.2
      false rfl rfl).2.1,
   by decide⟩

/-- C10: every sequence of `setUrl`, `setShowHiddenFiles`, `updateMouseButtons` and
show events runs from construction without a failed assertion or null dereference;
in the state it reaches and in every state on the way the listing source, the
model, the proxy and the view are all absent or all present, and once present no
later step changes any of the four pointers. -/
theorem components_all_or_none (u0 : KUrl) (ops : List (Toolkit × Op))
    (hops : ∀ e ∈ ops, e.2.isLifecycle = true) :
    ∃ p log, run (create u0) ops = some (p, log) ∧
      (allAbsent p = true ∨ allPresent p = true) ∧
      ∀ s ∈ log,
        (allAbsent s.before = true ∨ allPresent s.before = true) ∧
        (allAbsent s.after = true ∨ allPresent s.after = true) ∧
        (allPresent s.before = true →
          s.after.m_dirLister = s.before.m_dirLister ∧
          s.after.m_dolphinModel = s.before.m_dolphinModel ∧
          s.after.m_proxyModel = s.before.m_proxyModel ∧
          s.after.m_treeView = s.before.m_treeView) := by
  obtain ⟨p, log, hrun⟩ :=
    run_lifecycle_some ops (create u0) hops (Or.inl (by simp [create, allAbsent]))
  have hist := run_history ops _ _ _ hrun
  obtain ⟨hwf, hall⟩ := history_wellFormed log _ _ hist (create_wellFormed u0)
  refine ⟨p, log, hrun, hwf.1, ?_⟩
  intro s hs
  refine ⟨(hall s hs).1.1, (hall s hs).2.1, ?_⟩
  intro hpres
  exact step_keeps_components _ _ _ _ _ (history_sound log _ _ hist s hs) hpres

/-- Witness for C10: the lifecycle sample session. -/
theorem components_all_or_none_witness :
    (∀ e ∈ sampleLifecycleSession, e.2.isLifecycle = true) ∧
    ∃ p log, run (create KUrl.empty) sampleLifecycleSession = some (p, log) ∧
      (allAbsent p = true ∨ allPresent p = true) :=
  ⟨by decide,
   (components_all_or_none KUrl.empty sampleLifecycleSession (by decide)).imp
     (fun _ h => h.imp (fun _ h2 => ⟨h2.1, h2.2.1⟩))⟩
